import Mathlib

/-!
Shallow embedding of the vendor delivery validation engine of the
tool-management repository: the tar archive reader (`tar_file_reader.py`),
the archive comparer (`tar_compare.py`), the five-step vendor validation
engine (`vendor_rules.py`) and the checkpoint orchestrator
(`checkpoint_strategies.py`), together with theorems settling the frozen
claims about them.

Python strings are modelled as Lean `String`; Python byte strings as
`List Nat`; Python `None` as `Option.none`; Python exceptions as explicit
`Except`/`Option` values threaded as data.  Regular-expression search (used
only as an opaque oracle by the validation engine) is a parameter
`regexSearch : String → String → Bool`.  All definitions are executable and
translated from the source files, keeping the source's names.
-/

namespace ToolMgmt

/-! ### String helpers

Executable models of the Python `str` operations the source uses.  They are
defined over `String.data` (the list of characters) so that they reduce in
the kernel.
-/

/-- Python `s.lower()` restricted to per-character lowering (ASCII-faithful). -/
def strToLower (s : String) : String := ⟨s.data.map Char.toLower⟩

/-- Python `s.endswith(suffix)`. -/
def strEndsWith (s suffix : String) : Bool := suffix.data.isSuffixOf s.data

/-- Python `s.startswith(pre)`. -/
def strStartsWith (s pre : String) : Bool := pre.data.isPrefixOf s.data

/-- Python `os.path.basename`: the part of the path after the last `/`. -/
def basename (p : String) : String :=
  ⟨(p.data.reverse.takeWhile (fun c => c ≠ '/')).reverse⟩

/-- Replace every occurrence of `tgt` (non-empty, non-overlapping, scanning
left to right) by `repl`, with fuel for structural termination; the callers
always supply the scanned list's length as fuel, which is enough because
every step consumes at least one character. -/
def replaceFuel (tgt repl : List Char) : Nat → List Char → List Char
  | _, [] => []
  | 0, s => s
  | fuel + 1, c :: rest =>
    if tgt.isPrefixOf (c :: rest) && !tgt.isEmpty then
      repl ++ replaceFuel tgt repl fuel (List.drop (tgt.length - 1) rest)
    else
      c :: replaceFuel tgt repl fuel rest

/-- Python `pattern.format(tool_number=tool_number)` for templates whose only
placeholder is `\x7btool_number\x7d` (the only form the configuration files
use): every occurrence of the placeholder is replaced by the tool number. -/
def formatPattern (pattern tool_number : String) : String :=
  ⟨replaceFuel "\x7btool_number\x7d".data tool_number.data pattern.data.length pattern.data⟩

/-- `containsStr msg part`: `part` occurs contiguously inside `msg`. -/
def containsStr (msg part : String) : Prop :=
  ∃ pre post : String, msg = pre ++ part ++ post

/-- Python `", ".join(l)`-style separator join. -/
def joinSep (sep : String) : List String → String
  | [] => ""
  | [x] => x
  | x :: y :: xs => x ++ sep ++ joinSep sep (y :: xs)

/-- Rendering of a Python list of strings, as an f-string interpolates it:
`[\x27a\x27, \x27b\x27]`. -/
def renderPathList (paths : List String) : String :=
  "[" ++ joinSep ", " (paths.map (fun p => "\x27" ++ p ++ "\x27")) ++ "]"

theorem containsStr_refl (s : String) : containsStr s s :=
  ⟨"", "", by simp⟩

theorem containsStr_append_left (a msg part : String) (h : containsStr msg part) :
    containsStr (a ++ msg) part := by
  obtain ⟨pre, post, rfl⟩ := h
  exact ⟨a ++ pre, post, by simp [String.append_assoc]⟩

theorem containsStr_append_right (msg b part : String) (h : containsStr msg part) :
    containsStr (msg ++ b) part := by
  obtain ⟨pre, post, rfl⟩ := h
  exact ⟨pre, post ++ b, by simp [String.append_assoc]⟩

theorem containsStr_trans (m x p : String) (h1 : containsStr m x)
    (h2 : containsStr x p) : containsStr m p := by
  obtain ⟨a, b, rfl⟩ := h1
  obtain ⟨c, d, rfl⟩ := h2
  exact ⟨a ++ c, d ++ b, by simp [String.append_assoc]⟩

theorem containsStr_joinSep (sep : String) (l : List String) (x : String)
    (hx : x ∈ l) : containsStr (joinSep sep l) x := by
  induction l with
  | nil => cases hx
  | cons y ys ih =>
    cases ys with
    | nil =>
      rw [List.mem_singleton.mp hx]
      exact containsStr_refl _
    | cons z zs =>
      rcases List.mem_cons.mp hx with rfl | hmem
      · exact containsStr_append_right _ _ _
          (containsStr_append_right _ _ _ (containsStr_refl _))
      · exact containsStr_append_left _ _ _ (ih hmem)

theorem containsStr_renderPathList (paths : List String) (p : String)
    (hp : p ∈ paths) : containsStr (renderPathList paths) p := by
  unfold renderPathList
  refine containsStr_append_right _ _ _ (containsStr_append_left _ _ _ ?_)
  refine containsStr_trans _ ("\x27" ++ p ++ "\x27") _ ?_ ⟨"\x27", "\x27", rfl⟩
  exact containsStr_joinSep _ _ _ (List.mem_map_of_mem _ hp)

/-! ### Vendor configuration and bypass rules (`vendor_rules.py`)

`BypassRules` and `VendorConfig` model the vendor section of the
configuration document: `bypass_rules{technology_threshold, bypass_patterns}`,
`required_patterns`, and `consistency_check{enabled, file_extension}`.
-/

structure BypassRules where
  technology_threshold : Int
  bypass_patterns : List String
deriving DecidableEq, Repr

structure VendorConfig where
  required_patterns : List String
  bypass_rules : BypassRules
  consistency_enabled : Bool
  consistency_extension : String
deriving DecidableEq, Repr

/-- The inner loop of `_apply_bypass_rules` (vendor_rules.py lines 314-318):
`should_bypass` is set when some bypass pattern is a suffix of the (raw,
un-substituted) pattern template and the technology value exceeds the
threshold. -/
def shouldBypass (rules : BypassRules) (technology : Int) (pattern : String) : Bool :=
  rules.bypass_patterns.any fun bypass_pattern =>
    strEndsWith pattern bypass_pattern && decide (rules.technology_threshold < technology)

/-- The classification loop of `_apply_bypass_rules` over the required
patterns, returning `(patterns_to_check, bypassed_patterns)` with each list
in required-pattern order. -/
def applyBypassAux (rules : BypassRules) (technology : Int) :
    List String → List String × List String
  | [] => ([], [])
  | pattern :: rest =>
    if shouldBypass rules technology pattern then
      ((applyBypassAux rules technology rest).1,
        pattern :: (applyBypassAux rules technology rest).2)
    else
      (pattern :: (applyBypassAux rules technology rest).1,
        (applyBypassAux rules technology rest).2)

/-- `EnhancedVendorRuleStrategy._apply_bypass_rules` (vendor_rules.py lines
294-325). -/
def apply_bypass_rules (cfg : VendorConfig) (technology : Int) :
    List String × List String :=
  applyBypassAux cfg.bypass_rules technology cfg.required_patterns

theorem applyBypassAux_length (rules : BypassRules) (technology : Int)
    (l : List String) :
    (applyBypassAux rules technology l).1.length
      + (applyBypassAux rules technology l).2.length = l.length := by
  induction l with
  | nil => rfl
  | cons p rest ih =>
    simp only [applyBypassAux]
    split <;> simp <;> omega

theorem applyBypassAux_perm (rules : BypassRules) (technology : Int)
    (l : List String) :
    ((applyBypassAux rules technology l).1 ++ (applyBypassAux rules technology l).2).Perm l := by
  induction l with
  | nil => rfl
  | cons p rest ih =>
    simp only [applyBypassAux]
    split
    · exact (List.perm_middle).trans (ih.cons p)
    · simpa using ih.cons p

theorem applyBypassAux_mem_right (rules : BypassRules) (technology : Int)
    (l : List String) (p : String) :
    p ∈ (applyBypassAux rules technology l).2
      ↔ p ∈ l ∧ shouldBypass rules technology p = true := by
  induction l with
  | nil => simp [applyBypassAux]
  | cons q rest ih =>
    by_cases hq : shouldBypass rules technology q = true
    · simp only [applyBypassAux, if_pos hq, List.mem_cons, ih]
      constructor
      · rintro (rfl | ⟨hm, hs⟩)
        · exact ⟨Or.inl rfl, hq⟩
        · exact ⟨Or.inr hm, hs⟩
      · rintro ⟨rfl | hm, hs⟩
        · exact Or.inl rfl
        · exact Or.inr ⟨hm, hs⟩
    · simp only [applyBypassAux, if_neg hq, ih, List.mem_cons]
      constructor
      · rintro ⟨hm, hs⟩
        exact ⟨Or.inr hm, hs⟩
      · rintro ⟨rfl | hm, hs⟩
        · exact absurd hs hq
        · exact ⟨hm, hs⟩

theorem applyBypassAux_mem_left (rules : BypassRules) (technology : Int)
    (l : List String) (p : String) :
    p ∈ (applyBypassAux rules technology l).1
      ↔ p ∈ l ∧ shouldBypass rules technology p = false := by
  induction l with
  | nil => simp [applyBypassAux]
  | cons q rest ih =>
    by_cases hq : shouldBypass rules technology q = true
    · simp only [applyBypassAux, if_pos hq, ih, List.mem_cons]
      constructor
      · rintro ⟨hm, hs⟩
        exact ⟨Or.inr hm, hs⟩
      · rintro ⟨rfl | hm, hs⟩
        · exact absurd hq (by simp [hs])
        · exact ⟨hm, hs⟩
    · simp only [applyBypassAux, if_neg hq, List.mem_cons, ih]
      constructor
      · rintro (rfl | ⟨hm, hs⟩)
        · exact ⟨Or.inl rfl, by simpa using hq⟩
        · exact ⟨Or.inr hm, hs⟩
      · rintro ⟨rfl | hm, hs⟩
        · exact Or.inl rfl
        · exact Or.inr ⟨hm, hs⟩

theorem shouldBypass_eq_true (rules : BypassRules) (technology : Int)
    (p : String) :
    shouldBypass rules technology p = true
      ↔ rules.technology_threshold < technology ∧
          ∃ bp ∈ rules.bypass_patterns, strEndsWith p bp = true := by
  simp only [shouldBypass, List.any_eq_true, Bool.and_eq_true, decide_eq_true_eq]
  constructor
  · rintro ⟨bp, hbp, hend, hlt⟩
    exact ⟨hlt, bp, hbp, hend⟩
  · rintro ⟨hlt, bp, hbp, hend⟩
    exact ⟨bp, hbp, hend, hlt⟩

/-- The bypass classification exactly as the claim words it: substitute the
tool number into the pattern first, then match the configured suffixes
against the substituted string. -/
def claimedBypassSubstituted (rules : BypassRules) (technology : Int)
    (tool_number pattern : String) : Bool :=
  decide (rules.technology_threshold < technology) &&
    rules.bypass_patterns.any fun bypass_pattern =>
      strEndsWith (formatPattern pattern tool_number) bypass_pattern

/-- Concrete vendor policy separating the claimed (substitute-first) bypass
semantics from the code's raw-template suffix match: the template ends in
the placeholder, and the bypass suffix equals the tool number. -/
def c1Config : VendorConfig :=
  { required_patterns := ["Report_\x7btool_number\x7d"]
    bypass_rules := { technology_threshold := 5, bypass_patterns := ["123"] }
    consistency_enabled := false
    consistency_extension := "rctl" }

/-- Concrete policy used to instantiate the universally quantified bypass
theorems: suffix `.aaa` bypassed above technology threshold 5. -/
def c1WitnessConfig : VendorConfig :=
  { required_patterns := ["Config_x.aaa"]
    bypass_rules := { technology_threshold := 5, bypass_patterns := [".aaa"] }
    consistency_enabled := false
    consistency_extension := "rctl" }

/-- C9: the bypass step partitions the required patterns — the checked and
bypassed lists together are a permutation of `required_patterns`, so
`|checked| + |bypassed| = |required_patterns|` for every policy and
technology value. -/
theorem bypass_partition_invariant (cfg : VendorConfig) (technology : Int) :
    ((apply_bypass_rules cfg technology).1
        ++ (apply_bypass_rules cfg technology).2).Perm cfg.required_patterns ∧
    (apply_bypass_rules cfg technology).1.length
        + (apply_bypass_rules cfg technology).2.length
      = cfg.required_patterns.length :=
  ⟨applyBypassAux_perm _ _ _, applyBypassAux_length _ _ _⟩

/-- C1 counterexample: with required pattern `Report_\x7btool_number\x7d`,
bypass suffix `123`, tool number `123` and technology 7 > threshold 5, the
claim as stated (substitute first, then suffix-match) classifies the pattern
as bypassed, but the code suffix-matches the raw template and therefore
checks it: the bypassed list is empty. -/
theorem bypass_substituted_counterexample :
    claimedBypassSubstituted c1Config.bypass_rules 7 "123"
        "Report_\x7btool_number\x7d" = true ∧
    (apply_bypass_rules c1Config 7).1 = ["Report_\x7btool_number\x7d"] ∧
    (apply_bypass_rules c1Config 7).2 = [] := by decide

/-- C1 (amended): the bypass step classifies a required pattern as bypassed
iff `technology > bypass_threshold` and the RAW pattern template (no
tool-number substitution) ends with one of the configured bypass suffixes;
otherwise the pattern is checked. -/
theorem bypass_raw_suffix_iff (cfg : VendorConfig) (technology : Int)
    (p : String) (hp : p ∈ cfg.required_patterns) :
    (p ∈ (apply_bypass_rules cfg technology).2 ↔
       cfg.bypass_rules.technology_threshold < technology ∧
         ∃ bp ∈ cfg.bypass_rules.bypass_patterns, strEndsWith p bp = true) ∧
    (p ∈ (apply_bypass_rules cfg technology).1 ↔
       ¬(cfg.bypass_rules.technology_threshold < technology ∧
         ∃ bp ∈ cfg.bypass_rules.bypass_patterns, strEndsWith p bp = true)) := by
  constructor
  · rw [show apply_bypass_rules cfg technology
        = applyBypassAux cfg.bypass_rules technology cfg.required_patterns from rfl,
      applyBypassAux_mem_right, shouldBypass_eq_true]
    simp [hp]
  · rw [show apply_bypass_rules cfg technology
        = applyBypassAux cfg.bypass_rules technology cfg.required_patterns from rfl,
      applyBypassAux_mem_left, ← shouldBypass_eq_true]
    simp [hp, Bool.not_eq_true]

/-- Witness for `bypass_raw_suffix_iff` at the concrete policy
`c1WitnessConfig` with technology 7. -/
theorem bypass_raw_suffix_iff_witness :
    "Config_x.aaa" ∈ (apply_bypass_rules c1WitnessConfig 7).2 :=
  ((bypass_raw_suffix_iff c1WitnessConfig 7 "Config_x.aaa" (by decide)).1).mpr
    (by decide)

/-! ### Archive reader (`tar_file_reader.py`)

An archive is modelled as the list of its file members (directories are
already excluded, as `_get_file_members` does); each member carries its
archive-relative path and its content as a byte list.  The member size of
a well-formed tar listing equals the content length.
-/

structure Entry where
  path : String
  content : List Nat
deriving DecidableEq, Repr

abbrev Archive := List Entry

/-- `member.size` of the tar listing. -/
def entrySize (e : Entry) : Nat := e.content.length

/-- `TarFileReader.read_file`: the content of the member at `file_path`, or
`none` when no such member exists (`KeyError` / falsy `extractfile`). -/
def read_file (a : Archive) (file_path : String) : Option (List Nat) :=
  match a.find? (fun e => e.path == file_path) with
  | some e => some e.content
  | none => none

/-- `TarFileReader.read_text_file`: decodes the bytes of the member, `none`
when the member is missing, when its content is empty (the Python truthiness
test `if content:` is false for `b\x27\x27`), or when decoding fails.  The
decoder (`bytes.decode(encoding)`) is an opaque parameter returning `none`
on `UnicodeDecodeError`. -/
def read_text_file (decode : List Nat → Option String) (a : Archive)
    (file_path : String) : Option String :=
  match read_file a file_path with
  | some content => if content.isEmpty then none else decode content
  | none => none

/-- The per-member test of `search_files_by_extension`: the compiled pattern
`re.escape(extension) + \x24` with `re.IGNORECASE` searched in the member
path holds iff the lowercased path ends with the lowercased (dot-prefixed)
extension. -/
def extMatch (extension : String) (e : Entry) : Bool :=
  strEndsWith (strToLower e.path)
    (strToLower (if strStartsWith extension "." then extension else "." ++ extension))

/-- `TarFileReader.search_files_by_extension` (tar_file_reader.py lines
178-192): leading dot added when missing, then a case-insensitive,
end-anchored match of the escaped extension against each member path. -/
def search_files_by_extension (a : Archive) (extension : String) : List Entry :=
  a.filter (extMatch extension)

/-! ### Archive comparer (`tar_compare.py`) -/

structure TarComparisonResult where
  success : Bool
  message : String
  source_file : Option String
  target_file : Option String
deriving DecidableEq, Repr

/-- `TarFileComparer._normalize_extension`: leading dot, lowercased. -/
def normalize_extension (extension : String) : String :=
  strToLower (if strStartsWith extension "." then extension else "." ++ extension)

/-- `TarFileComparer._find_files_by_extension`: the matching members as the
`(full_path, filename, size)` triples the reader yields. -/
def find_files_by_extension (a : Archive) (extension : String) :
    List (String × String × Nat) :=
  (search_files_by_extension a extension).map
    (fun e => (e.path, basename e.path, entrySize e))

/-- The body of `TarFileComparer.compare_files` after both readers opened
successfully, for the already-normalized extension.  The match mirrors the
sequential checks of the source: source empty, target empty, source
multiple, target multiple, then the unique-pair comparison.  (Python repr
quoting of each candidate path inside the f-string list rendering is kept
via `renderPathList`.) -/
def compare_core (source_path target_path : String) (src tgt : Archive)
    (ext : String) : TarComparisonResult :=
  match find_files_by_extension src ext, find_files_by_extension tgt ext with
  | [], _ =>
    ⟨false, "No files with extension \x27" ++ ext ++ "\x27 found in source archive: "
        ++ source_path, none, none⟩
  | _ :: _, [] =>
    ⟨false, "No files with extension \x27" ++ ext ++ "\x27 found in target archive: "
        ++ target_path, none, none⟩
  | f :: g :: rest, _ :: _ =>
    ⟨false, "Multiple files with extension \x27" ++ ext
        ++ "\x27 found in source archive. Found: "
        ++ renderPathList ((f :: g :: rest).map (fun t => t.1)), none, none⟩
  | [_], f :: g :: rest =>
    ⟨false, "Multiple files with extension \x27" ++ ext
        ++ "\x27 found in target archive. Found: "
        ++ renderPathList ((f :: g :: rest).map (fun t => t.1)), none, none⟩
  | [sf], [tf] =>
    match read_file src sf.1, read_file tgt tf.1 with
    | none, _ => ⟨false, "Failed to read source file: " ++ sf.1, none, none⟩
    | some _, none => ⟨false, "Failed to read target file: " ++ tf.1, none, none⟩
    | some source_content, some target_content =>
      if source_content = target_content then
        ⟨true, "Files are identical: source \x27" ++ sf.1 ++ "\x27 matches target \x27"
            ++ tf.1 ++ "\x27", some sf.1, some tf.1⟩
      else
        ⟨false, "Files differ: source \x27" ++ sf.1 ++ "\x27 ("
            ++ toString source_content.length ++ " bytes) vs target \x27" ++ tf.1
            ++ "\x27 (" ++ toString target_content.length ++ " bytes)",
          some sf.1, some tf.1⟩

/-- `TarFileComparer.compare_files` (tar_compare.py lines 49-138).  The
archives are `Option`-valued: `none` models a `FileNotFoundError` when the
reader opens the archive, which the source catches and turns into a failure
result.  The function is total: every error is returned as a failure
result, never raised. -/
def compare_files (source_path target_path : String)
    (sourceA targetA : Option Archive) (extension : String) :
    TarComparisonResult :=
  let ext := normalize_extension extension
  match sourceA, targetA with
  | none, _ => ⟨false, "Archive file not found: " ++ source_path, none, none⟩
  | some _, none => ⟨false, "Archive file not found: " ++ target_path, none, none⟩
  | some src, some tgt => compare_core source_path target_path src tgt ext

/-- C10: `read_text_file` returns `none` for an existing member with
zero-length content (Python's `if content:` is false for an empty byte
string), for a missing member, and for an undecodable member — so the empty
string is never returned for an empty member, and a caller cannot
distinguish an existing empty decodable file from an absent one. -/
theorem read_text_file_empty_indistinguishable
    (decode : List Nat → Option String) (a : Archive) (p : String) :
    (read_file a p = some [] → read_text_file decode a p = none) ∧
    (read_file a p = none → read_text_file decode a p = none) ∧
    (∀ c, read_file a p = some c → decode c = none →
      read_text_file decode a p = none) := by
  refine ⟨?_, ?_, ?_⟩
  · intro h
    simp [read_text_file, h]
  · intro h
    simp [read_text_file, h]
  · intro c hc hd
    simp [read_text_file, hc, hd]

/-- Witness for `read_text_file_empty_indistinguishable`: an archive holding
one empty member, read with an always-succeeding decoder, still yields
`none`. -/
theorem read_text_file_empty_indistinguishable_witness :
    read_text_file (fun _ => some "decoded") [⟨"data/empty.txt", []⟩]
      "data/empty.txt" = none :=
  (read_text_file_empty_indistinguishable (fun _ => some "decoded")
      [⟨"data/empty.txt", []⟩] "data/empty.txt").1 (by decide)

/-- A pattern-match cannot change which side of the archive the entry came
from: when the extension search over the source returns exactly one entry,
`read_file` at that entry's path returns exactly that entry's content (the
extension filter depends only on the path, so a duplicate path would also
have been in the singleton filter result). -/
theorem read_file_of_search_singleton (src : Archive) (ext : String) (e : Entry)
    (h : search_files_by_extension src ext = [e]) :
    read_file src e.path = some e.content := by
  have he : e ∈ src.filter (extMatch ext) := by
    rw [show src.filter (extMatch ext) = search_files_by_extension src ext from rfl, h]
    exact List.mem_singleton_self e
  have hmemsrc : e ∈ src := (List.mem_filter.mp he).1
  have hpe : extMatch ext e = true := (List.mem_filter.mp he).2
  have hfind : (src.find? (fun x => x.path == e.path)).isSome := by
    rw [List.find?_isSome]
    exact ⟨e, hmemsrc, by simp⟩
  obtain ⟨e2, hfind2⟩ := Option.isSome_iff_exists.mp hfind
  have hmem2 : e2 ∈ src := List.mem_of_find?_eq_some hfind2
  have hpath : e2.path = e.path := by
    have := List.find?_some hfind2
    simpa using this
  have hmatch2 : extMatch ext e2 = true := by
    unfold extMatch at hpe ⊢
    rw [hpath]
    exact hpe
  have he2 : e2 ∈ src.filter (extMatch ext) := List.mem_filter.mpr ⟨hmem2, hmatch2⟩
  have : e2 = e := by
    rw [show src.filter (extMatch ext) = search_files_by_extension src ext from rfl,
      h] at he2
    exact List.mem_singleton.mp he2
  rw [read_file, hfind2, this]

theorem compare_core_success_symm (sp tp : String) (src tgt : Archive)
    (ext : String) :
    (compare_core sp tp src tgt ext).success
      = (compare_core tp sp tgt src ext).success := by
  rcases hs : search_files_by_extension src ext with _ | ⟨e1, _ | ⟨e1b, srest⟩⟩ <;>
    rcases ht : search_files_by_extension tgt ext with _ | ⟨e2, _ | ⟨e2b, trest⟩⟩ <;>
    simp only [compare_core, find_files_by_extension, hs, ht, List.map] <;>
    try rfl
  rcases hr1 : read_file src e1.path with _ | c1 <;>
    rcases hr2 : read_file tgt e2.path with _ | c2 <;>
    simp only [hr1, hr2] <;> try rfl
  by_cases h : c1 = c2
  · simp [h]
  · rw [if_neg h, if_neg (fun hh => h hh.symm)]

/-- C8: the success/failure boolean of `compare_files` is symmetric in the
two archives, even though failure messages may differ by direction. -/
theorem compare_files_success_symm (sp tp : String) (sa ta : Option Archive)
    (extension : String) :
    (compare_files sp tp sa ta extension).success
      = (compare_files tp sp ta sa extension).success := by
  cases sa with
  | none => cases ta <;> rfl
  | some src =>
    cases ta with
    | none => rfl
    | some tgt => exact compare_core_success_symm sp tp src tgt (normalize_extension extension)

theorem containsStr_of_eq (msg pre part post : String)
    (h : msg = pre ++ part ++ post) : containsStr msg part := ⟨pre, post, h⟩

/-- C6: the comparison policy of `compare_files` — it is a total function
(all errors are failure results); zero extension matches on a side is a
failure naming that side and the extension; more than one match on a side
is a failure naming every candidate path; exactly one match on each side
succeeds iff the two contents are byte-identical, and on inequality the
message reports both byte lengths. -/
theorem compare_files_policy (sp tp : String) (sa ta : Option Archive)
    (extension : String) (ext : String)
    (hext : ext = normalize_extension extension)
    (r : TarComparisonResult) (hr : r = compare_files sp tp sa ta extension) :
    (sa = none ∨ ta = none → r.success = false) ∧
    (∀ src tgt, sa = some src → ta = some tgt →
      ((search_files_by_extension src ext = [] →
          r.success = false ∧ containsStr r.message "source archive" ∧
            containsStr r.message ext) ∧
       (search_files_by_extension src ext ≠ [] →
          search_files_by_extension tgt ext = [] →
          r.success = false ∧ containsStr r.message "target archive" ∧
            containsStr r.message ext) ∧
       (1 < (search_files_by_extension src ext).length →
          search_files_by_extension tgt ext ≠ [] →
          r.success = false ∧
            ∀ e ∈ search_files_by_extension src ext, containsStr r.message e.path) ∧
       ((search_files_by_extension src ext).length = 1 →
          1 < (search_files_by_extension tgt ext).length →
          r.success = false ∧
            ∀ e ∈ search_files_by_extension tgt ext, containsStr r.message e.path) ∧
       (∀ e1 e2, search_files_by_extension src ext = [e1] →
          search_files_by_extension tgt ext = [e2] →
          (r.success = true ↔ e1.content = e2.content) ∧
          (e1.content ≠ e2.content →
            containsStr r.message (toString e1.content.length) ∧
              containsStr r.message (toString e2.content.length))))) := by
  subst hext
  subst hr
  constructor
  · rintro (rfl | rfl)
    · rfl
    · cases sa <;> rfl
  · rintro src tgt rfl rfl
    rw [show compare_files sp tp (some src) (some tgt) extension
        = compare_core sp tp src tgt (normalize_extension extension) from rfl]
    rcases hs : search_files_by_extension src (normalize_extension extension) with
        _ | ⟨e1, _ | ⟨e1b, srest⟩⟩ <;>
      rcases ht : search_files_by_extension tgt (normalize_extension extension) with
        _ | ⟨e2, _ | ⟨e2b, trest⟩⟩ <;>
      simp only [compare_core, find_files_by_extension, hs, ht, List.map] <;>
      refine ⟨?_, ?_, ?_, ?_, ?_⟩
    -- source empty, target empty
    · intro _
      refine ⟨trivial, ?_, ?_⟩
      · exact containsStr_append_right _ _ _ (containsStr_append_left _ _ _
          ⟨"\x27 found in ", ": ", rfl⟩)
      · exact containsStr_append_right _ _ _ (containsStr_append_right _ _ _
          (containsStr_append_left _ _ _ (containsStr_refl _)))
    · intro h
      exact absurd rfl h
    · intro h
      simp at h
    · intro h
      simp at h
    · intro e1 e2 h
      cases h
    -- source empty, target singleton
    · intro _
      refine ⟨trivial, ?_, ?_⟩
      · exact containsStr_append_right _ _ _ (containsStr_append_left _ _ _
          ⟨"\x27 found in ", ": ", rfl⟩)
      · exact containsStr_append_right _ _ _ (containsStr_append_right _ _ _
          (containsStr_append_left _ _ _ (containsStr_refl _)))
    · intro h
      exact absurd rfl h
    · intro h
      simp at h
    · intro h
      simp at h
    · intro e1 e2 h
      cases h
    -- source empty, target multiple
    · intro _
      refine ⟨trivial, ?_, ?_⟩
      · exact containsStr_append_right _ _ _ (containsStr_append_left _ _ _
          ⟨"\x27 found in ", ": ", rfl⟩)
      · exact containsStr_append_right _ _ _ (containsStr_append_right _ _ _
          (containsStr_append_left _ _ _ (containsStr_refl _)))
    · intro h
      exact absurd rfl h
    · intro h
      simp at h
    · intro h
      simp at h
    · intro e1 e2 h
      cases h
    -- source singleton, target empty
    · intro h
      cases h
    · intro _ _
      refine ⟨trivial, ?_, ?_⟩
      · exact containsStr_append_right _ _ _ (containsStr_append_left _ _ _
          ⟨"\x27 found in ", ": ", rfl⟩)
      · exact containsStr_append_right _ _ _ (containsStr_append_right _ _ _
          (containsStr_append_left _ _ _ (containsStr_refl _)))
    · intro h
      simp at h
    · intro _ h
      simp at h
    · intro e1' e2' _ h
      cases h
    -- source singleton, target singleton: the unique-pair comparison
    · intro h
      cases h
    · intro _ h
      cases h
    · intro h
      simp at h
    · intro _ h
      simp at h
    · intro e1' e2' h1 h2
      have he1 : e1' = e1 := by
        injection h1 with h1a h1b
        exact h1a.symm
      have he2 : e2' = e2 := by
        injection h2 with h2a h2b
        exact h2a.symm
      rw [he1, he2]
      have hr1 : read_file src e1.path = some e1.content :=
        read_file_of_search_singleton src _ e1 hs
      have hr2 : read_file tgt e2.path = some e2.content :=
        read_file_of_search_singleton tgt _ e2 ht
      simp only [hr1, hr2]
      by_cases hc : e1.content = e2.content
      · simp [hc]
      · rw [if_neg hc]
        refine ⟨by simp [hc], fun _ => ⟨?_, ?_⟩⟩
        · exact containsStr_of_eq _
            ("Files differ: source \x27" ++ e1.path ++ "\x27 (")
            (toString e1.content.length)
            (" bytes) vs target \x27" ++ e2.path ++ "\x27 ("
              ++ toString e2.content.length ++ " bytes)")
            (by simp [String.append_assoc])
        · exact containsStr_of_eq _
            ("Files differ: source \x27" ++ e1.path ++ "\x27 ("
              ++ toString e1.content.length ++ " bytes) vs target \x27"
              ++ e2.path ++ "\x27 (")
            (toString e2.content.length)
            (" bytes)")
            (by simp [String.append_assoc])
    -- source singleton, target multiple
    · intro h
      cases h
    · intro _ h
      cases h
    · intro h
      simp at h
    · intro _ _
      refine ⟨trivial, ?_⟩
      intro e he
      refine containsStr_append_left _ _ _ (containsStr_renderPathList _ _ ?_)
      rcases List.mem_cons.mp he with rfl | he
      · exact List.mem_cons_self _ _
      rcases List.mem_cons.mp he with rfl | he
      · exact List.mem_cons_of_mem _ (List.mem_cons_self _ _)
      · exact List.mem_cons_of_mem _ (List.mem_cons_of_mem _
          (List.mem_map_of_mem _ (List.mem_map_of_mem _ he)))
    · intro e1' e2' _ h
      cases h
    -- source multiple, target empty
    · intro h
      cases h
    · intro _ _
      refine ⟨trivial, ?_, ?_⟩
      · exact containsStr_append_right _ _ _ (containsStr_append_left _ _ _
          ⟨"\x27 found in ", ": ", rfl⟩)
      · exact containsStr_append_right _ _ _ (containsStr_append_right _ _ _
          (containsStr_append_left _ _ _ (containsStr_refl _)))
    · intro _ h
      exact absurd rfl h
    · intro h
      simp at h
    · intro e1' e2' h
      cases h
    -- source multiple, target singleton
    · intro h
      cases h
    · intro _ h
      cases h
    · intro _ _
      refine ⟨trivial, ?_⟩
      intro e he
      refine containsStr_append_left _ _ _ (containsStr_renderPathList _ _ ?_)
      rcases List.mem_cons.mp he with rfl | he
      · exact List.mem_cons_self _ _
      rcases List.mem_cons.mp he with rfl | he
      · exact List.mem_cons_of_mem _ (List.mem_cons_self _ _)
      · exact List.mem_cons_of_mem _ (List.mem_cons_of_mem _
          (List.mem_map_of_mem _ (List.mem_map_of_mem _ he)))
    · intro h
      simp at h
    · intro e1' e2' h
      cases h
    -- source multiple, target multiple
    · intro h
      cases h
    · intro _ h
      cases h
    · intro _ _
      refine ⟨trivial, ?_⟩
      intro e he
      refine containsStr_append_left _ _ _ (containsStr_renderPathList _ _ ?_)
      rcases List.mem_cons.mp he with rfl | he
      · exact List.mem_cons_self _ _
      rcases List.mem_cons.mp he with rfl | he
      · exact List.mem_cons_of_mem _ (List.mem_cons_self _ _)
      · exact List.mem_cons_of_mem _ (List.mem_cons_of_mem _
          (List.mem_map_of_mem _ (List.mem_map_of_mem _ he)))
    · intro h
      simp at h
    · intro e1' e2' h
      cases h

/-- Witness for `compare_files_policy`: two archives, one `.txt` member each
with different contents, compare as a failure. -/
theorem compare_files_policy_witness :
    (compare_files "source.tar.gz" "target.tar.gz"
        (some [⟨"conf/a.txt", [1]⟩]) (some [⟨"conf/b.txt", [2]⟩]) "txt").success
      = false := by
  have h := ((compare_files_policy "source.tar.gz" "target.tar.gz"
      (some [⟨"conf/a.txt", [1]⟩]) (some [⟨"conf/b.txt", [2]⟩]) "txt"
      (normalize_extension "txt") rfl
      (compare_files "source.tar.gz" "target.tar.gz"
        (some [⟨"conf/a.txt", [1]⟩]) (some [⟨"conf/b.txt", [2]⟩]) "txt") rfl).2
      [⟨"conf/a.txt", [1]⟩] [⟨"conf/b.txt", [2]⟩] rfl rfl).2.2.2.2
      ⟨"conf/a.txt", [1]⟩ ⟨"conf/b.txt", [2]⟩ (by decide) (by decide)
  cases hx : (compare_files "source.tar.gz" "target.tar.gz"
      (some [⟨"conf/a.txt", [1]⟩]) (some [⟨"conf/b.txt", [2]⟩]) "txt").success
  · rfl
  · exact absurd (h.1.mp hx) (by decide)

/-! ### Validation engine (`vendor_rules.py`, `check_final_report_from_dataframe`)

Step statuses as the source uses them (the bypass step is reported with
status `INFO`).  Archive discovery (`_find_archives_from_dataframe` walking
the filesystem, possibly raising on a bad regex template) is an input of
the embedding: `Except.error e` models a raised exception with text `e`,
`Except.ok (srcOpt, tgtOpt)` the two optional discovered archives, each a
path paired with the archive's content.  Pattern search
(`re.compile(p).search`) is the opaque oracle `regexSearch`; the engine's
claims do not depend on regex semantics.  `passing_rate` is modelled in ℚ
(the Python float arithmetic is exact for the claims proved here).
-/

inductive StepStatus
  | PENDING | PASS | FAIL | SKIPPED | ERROR | INFO
deriving DecidableEq, Repr

structure StepResult where
  status : StepStatus
  message : String
deriving DecidableEq, Repr

/-- The initial `{"status": "PENDING", "message": ""}` of every step. -/
def pendingStep : StepResult := ⟨.PENDING, ""⟩

inductive PatternStatus
  | PASS | FAIL | BYPASSED
deriving DecidableEq, Repr

structure PatternResult where
  pattern : String
  formatted_pattern : Option String
  status : PatternStatus
  files : List (String × String × Nat)
  file_count : Nat
  bypass_reason : Option String
deriving DecidableEq, Repr

structure Statistics where
  pass_count : Nat
  fail_count : Nat
  bypassed_count : Nat
  passing_rate : ℚ
  total_patterns : Nat
  checked_patterns : Nat
deriving DecidableEq, Repr

/-- The validation-results dictionary.  `trace` is an instrumentation field
of the embedding (not a key of the Python dict): it records, in order, the
names of the steps the straight-line source actually evaluated before
returning, so the step-ordering/short-circuit claim can be stated. -/
structure ValidationResult where
  success : Bool
  tool_number : String
  technology_value : Int
  source_archive : Option String
  target_archive : Option String
  archive_discovery : StepResult
  target_exists : StepResult
  file_consistency : StepResult
  pattern_validation : StepResult
  bypass_applied : StepResult
  statistics : Statistics
  pattern_results : List PatternResult
  trace : List String
deriving DecidableEq, Repr

/-- `TarFileReader.search_files_by_pattern` with the regex oracle: the
members whose path the compiled pattern matches, as
`(full_path, filename, size)` triples. -/
def search_files_by_pattern (regexSearch : String → String → Bool)
    (a : Archive) (pattern : String) : List (String × String × Nat) :=
  (a.filter (fun e => regexSearch pattern e.path)).map
    (fun e => (e.path, basename e.path, entrySize e))

/-- `EnhancedVendorRuleStrategy._validate_patterns` (vendor_rules.py lines
327-384): substitute the tool number, search the target archive, keep only
files with `size > 0`; the pattern passes iff at least one such file
remains.  Returns `(pass_count, fail_count, pattern_results)`. -/
def validate_patterns (regexSearch : String → String → Bool) (target : Archive)
    (tool_number : String) : List String → Nat × Nat × List PatternResult
  | [] => (0, 0, [])
  | p :: rest =>
    if ((search_files_by_pattern regexSearch target
          (formatPattern p tool_number)).filter (fun m => 0 < m.2.2)).isEmpty then
      ((validate_patterns regexSearch target tool_number rest).1,
        (validate_patterns regexSearch target tool_number rest).2.1 + 1,
        ⟨p, some (formatPattern p tool_number), .FAIL, [], 0, none⟩
          :: (validate_patterns regexSearch target tool_number rest).2.2)
    else
      ((validate_patterns regexSearch target tool_number rest).1 + 1,
        (validate_patterns regexSearch target tool_number rest).2.1,
        ⟨p, some (formatPattern p tool_number), .PASS,
            (search_files_by_pattern regexSearch target
              (formatPattern p tool_number)).filter (fun m => 0 < m.2.2),
            ((search_files_by_pattern regexSearch target
              (formatPattern p tool_number)).filter (fun m => 0 < m.2.2)).length,
            none⟩
          :: (validate_patterns regexSearch target tool_number rest).2.2)

/-- `EnhancedVendorRuleStrategy._check_file_consistency` (vendor_rules.py
lines 247-292): `SKIPPED` when disabled, else `PASS`/`FAIL` from
`compare_files` on the configured extension. -/
def check_file_consistency (cfg : VendorConfig) (source_path target_path : String)
    (src tgt : Archive) : StepResult :=
  if !cfg.consistency_enabled then
    ⟨.SKIPPED, "File consistency check disabled"⟩
  else if (compare_files source_path target_path (some src) (some tgt)
      cfg.consistency_extension).success then
    ⟨.PASS, "." ++ cfg.consistency_extension
        ++ " files are identical between source and target"⟩
  else
    ⟨.FAIL, "." ++ cfg.consistency_extension ++ " file consistency check failed: "
        ++ (compare_files source_path target_path (some src) (some tgt)
              cfg.consistency_extension).message⟩

/-- The initial statistics dictionary (vendor_rules.py lines 100-107). -/
def initialStatistics (cfg : VendorConfig) : Statistics :=
  ⟨0, 0, 0, 0, cfg.required_patterns.length, 0⟩

/-- The initial validation-results dictionary (vendor_rules.py lines
83-109). -/
def initialValidationResult (cfg : VendorConfig) (tool_number : String)
    (tech_value : Int) : ValidationResult :=
  { success := false
    tool_number := tool_number
    technology_value := tech_value
    source_archive := none
    target_archive := none
    archive_discovery := pendingStep
    target_exists := pendingStep
    file_consistency := pendingStep
    pattern_validation := pendingStep
    bypass_applied := pendingStep
    statistics := initialStatistics cfg
    pattern_results := []
    trace := [] }

/-- The `BYPASSED` entry appended for each bypassed pattern
(vendor_rules.py lines 148-154). -/
def bypassedPatternResult (cfg : VendorConfig) (tech_value : Int)
    (pattern : String) : PatternResult :=
  ⟨pattern, none, .BYPASSED, [], 0,
    some ("Technology " ++ toString tech_value ++ " > "
      ++ toString cfg.bypass_rules.technology_threshold)⟩

/-- `EnhancedVendorRuleStrategy.check_final_report_from_dataframe`
(vendor_rules.py lines 68-189): the five-step validation.  A raised
exception during discovery lands in the `except` branch, which overwrites
the discovery step with status `ERROR`; a missing archive is a discovery
`FAIL` returned immediately; a consistency `FAIL` is returned immediately;
otherwise bypass resolution, pattern validation, statistics and the overall
success conjunction complete the record. -/
def check_final_report_from_dataframe (cfg : VendorConfig)
    (regexSearch : String → String → Bool)
    (discovery : Except String (Option (String × Archive) × Option (String × Archive)))
    (tool_number : String) (tech_value : Int) : ValidationResult :=
  match discovery with
  | .error e =>
    { initialValidationResult cfg tool_number tech_value with
        archive_discovery := ⟨.ERROR, "Validation error: " ++ e⟩
        trace := ["archive_discovery"] }
  | .ok (srcOpt, tgtOpt) =>
    match srcOpt, tgtOpt with
    | none, _ =>
      { initialValidationResult cfg tool_number tech_value with
          source_archive := none
          target_archive := tgtOpt.map (fun x => x.1)
          archive_discovery := ⟨.FAIL, "Archives not found - Source: None, Target: "
            ++ (tgtOpt.map (fun x => x.1)).getD "None"⟩
          trace := ["archive_discovery"] }
    | some _, none =>
      { initialValidationResult cfg tool_number tech_value with
          source_archive := srcOpt.map (fun x => x.1)
          target_archive := none
          archive_discovery := ⟨.FAIL, "Archives not found - Source: "
            ++ (srcOpt.map (fun x => x.1)).getD "None" ++ ", Target: None"⟩
          trace := ["archive_discovery"] }
    | some (source_path, src), some (target_path, tgt) =>
      if (check_file_consistency cfg source_path target_path src tgt).status
          = .FAIL then
        { initialValidationResult cfg tool_number tech_value with
            source_archive := some source_path
            target_archive := some target_path
            archive_discovery := ⟨.PASS, "Archives found - Source: "
              ++ basename source_path ++ ", Target: " ++ basename target_path⟩
            target_exists := ⟨.PASS, "Target archive exists: " ++ target_path⟩
            file_consistency := check_file_consistency cfg source_path target_path src tgt
            trace := ["archive_discovery", "target_exists", "file_consistency"] }
      else
        { initialValidationResult cfg tool_number tech_value with
            success :=
              ((StepStatus.PASS == StepStatus.PASS) &&
               (StepStatus.PASS == StepStatus.PASS) &&
               ((check_file_consistency cfg source_path target_path src tgt).status
                    == .PASS ||
                (check_file_consistency cfg source_path target_path src tgt).status
                    == .SKIPPED) &&
               ((if (validate_patterns regexSearch tgt tool_number
                      (apply_bypass_rules cfg tech_value).1).2.1 = 0
                  then StepStatus.PASS else StepStatus.FAIL) == StepStatus.PASS))
            source_archive := some source_path
            target_archive := some target_path
            archive_discovery := ⟨.PASS, "Archives found - Source: "
              ++ basename source_path ++ ", Target: " ++ basename target_path⟩
            target_exists := ⟨.PASS, "Target archive exists: " ++ target_path⟩
            file_consistency := check_file_consistency cfg source_path target_path src tgt
            pattern_validation := ⟨(if (validate_patterns regexSearch tgt tool_number
                  (apply_bypass_rules cfg tech_value).1).2.1 = 0
                then .PASS else .FAIL),
              "Pattern validation: "
                ++ toString (validate_patterns regexSearch tgt tool_number
                      (apply_bypass_rules cfg tech_value).1).1
                ++ "/" ++ toString (apply_bypass_rules cfg tech_value).1.length
                ++ " patterns passed"⟩
            bypass_applied := ⟨.INFO, "Bypassed "
              ++ toString (apply_bypass_rules cfg tech_value).2.length
              ++ " patterns based on technology value " ++ toString tech_value⟩
            statistics :=
              ⟨(validate_patterns regexSearch tgt tool_number
                  (apply_bypass_rules cfg tech_value).1).1,
               (validate_patterns regexSearch tgt tool_number
                  (apply_bypass_rules cfg tech_value).1).2.1,
               (apply_bypass_rules cfg tech_value).2.length,
               (if 0 < (apply_bypass_rules cfg tech_value).1.length then
                  ((validate_patterns regexSearch tgt tool_number
                      (apply_bypass_rules cfg tech_value).1).1 : ℚ)
                    / ((apply_bypass_rules cfg tech_value).1.length : ℚ) * 100
                else (100 : ℚ)),
               cfg.required_patterns.length,
               (apply_bypass_rules cfg tech_value).1.length⟩
            pattern_results :=
              (validate_patterns regexSearch tgt tool_number
                  (apply_bypass_rules cfg tech_value).1).2.2
                ++ (apply_bypass_rules cfg tech_value).2.map
                    (bypassedPatternResult cfg tech_value)
            trace := ["archive_discovery", "target_exists", "file_consistency",
              "bypass", "pattern_validation"] }

theorem validate_patterns_counts (regexSearch : String → String → Bool)
    (target : Archive) (tool_number : String) (l : List String) :
    (validate_patterns regexSearch target tool_number l).1
      + (validate_patterns regexSearch target tool_number l).2.1 = l.length := by
  induction l with
  | nil => rfl
  | cons p rest ih =>
    simp only [validate_patterns]
    split <;> simp <;> omega

theorem validate_patterns_pass_le (regexSearch : String → String → Bool)
    (target : Archive) (tool_number : String) (l : List String) :
    (validate_patterns regexSearch target tool_number l).1 ≤ l.length := by
  have h := validate_patterns_counts regexSearch target tool_number l
  omega

/-- C5: the overall success flag equals the conjunction of the step
statuses the spec names, with the pattern-validation condition expressed as
`fail_count == 0`; this holds on every path, including short-circuited and
errored runs. -/
theorem overall_success_formula (cfg : VendorConfig)
    (regexSearch : String → String → Bool)
    (discovery : Except String (Option (String × Archive) × Option (String × Archive)))
    (tool_number : String) (tech_value : Int) :
    (check_final_report_from_dataframe cfg regexSearch discovery tool_number
        tech_value).success
      = (((check_final_report_from_dataframe cfg regexSearch discovery tool_number
            tech_value).archive_discovery.status == .PASS) &&
         ((check_final_report_from_dataframe cfg regexSearch discovery tool_number
            tech_value).target_exists.status == .PASS) &&
         (((check_final_report_from_dataframe cfg regexSearch discovery tool_number
            tech_value).file_consistency.status == .PASS) ||
          ((check_final_report_from_dataframe cfg regexSearch discovery tool_number
            tech_value).file_consistency.status == .SKIPPED)) &&
         ((check_final_report_from_dataframe cfg regexSearch discovery tool_number
            tech_value).statistics.fail_count == 0)) := by
  rcases discovery with e | ⟨srcOpt, tgtOpt⟩
  · rfl
  · rcases srcOpt with _ | ⟨sp, sa⟩
    · rfl
    · rcases tgtOpt with _ | ⟨tp, ta⟩
      · rfl
      · by_cases hc : (check_file_consistency cfg sp tp sa ta).status = .FAIL
        · simp [check_final_report_from_dataframe, initialValidationResult,
            initialStatistics, hc]
        · by_cases hv : (validate_patterns regexSearch ta tool_number
              (apply_bypass_rules cfg tech_value).1).2.1 = 0
          · simp [check_final_report_from_dataframe, initialValidationResult,
              initialStatistics, hc, hv]
          · simp only [check_final_report_from_dataframe, initialValidationResult,
              initialStatistics, if_neg hc, if_neg hv]
            rw [show (StepStatus.FAIL == StepStatus.PASS) = false from rfl,
              beq_eq_false_iff_ne.mpr hv]

/-- The canonical evaluation order of the five validation steps. -/
def stepOrder : List String :=
  ["archive_discovery", "target_exists", "file_consistency", "bypass",
    "pattern_validation"]

/-- C4: the steps are evaluated in the order discovery, target-existence,
consistency, bypass, pattern-validation (the evaluated trace is always a
prefix of that order); a discovery FAIL returns immediately with every
later step still PENDING; a consistency FAIL returns immediately with the
bypass and pattern-validation steps still PENDING; and when neither fails,
all five steps are evaluated in order. -/
theorem step_order_short_circuit (cfg : VendorConfig)
    (regexSearch : String → String → Bool)
    (discovery : Except String (Option (String × Archive) × Option (String × Archive)))
    (tool_number : String) (tech_value : Int)
    (r : ValidationResult)
    (hr : r = check_final_report_from_dataframe cfg regexSearch discovery
      tool_number tech_value) :
    r.trace.IsPrefix stepOrder ∧
    (r.archive_discovery.status = .FAIL →
      r.target_exists = pendingStep ∧ r.file_consistency = pendingStep ∧
        r.bypass_applied = pendingStep ∧ r.pattern_validation = pendingStep ∧
        r.trace = ["archive_discovery"]) ∧
    (r.file_consistency.status = .FAIL →
      r.bypass_applied = pendingStep ∧ r.pattern_validation = pendingStep ∧
        r.trace = ["archive_discovery", "target_exists", "file_consistency"]) ∧
    (r.archive_discovery.status = .PASS → r.file_consistency.status ≠ .FAIL →
      r.trace = stepOrder) := by
  subst hr
  rcases discovery with e | ⟨srcOpt, tgtOpt⟩
  · refine ⟨⟨["target_exists", "file_consistency", "bypass", "pattern_validation"],
      rfl⟩, ?_, ?_, ?_⟩
    · intro h
      cases h
    · intro h
      cases h
    · intro h
      cases h
  · rcases srcOpt with _ | ⟨sp, sa⟩
    · refine ⟨⟨["target_exists", "file_consistency", "bypass", "pattern_validation"],
        rfl⟩, ?_, ?_, ?_⟩
      · intro _
        exact ⟨rfl, rfl, rfl, rfl, rfl⟩
      · intro h
        cases h
      · intro h
        cases h
    · rcases tgtOpt with _ | ⟨tp, ta⟩
      · refine ⟨⟨["target_exists", "file_consistency", "bypass", "pattern_validation"],
          rfl⟩, ?_, ?_, ?_⟩
        · intro _
          exact ⟨rfl, rfl, rfl, rfl, rfl⟩
        · intro h
          cases h
        · intro h
          cases h
      · by_cases hc : (check_file_consistency cfg sp tp sa ta).status = .FAIL
        · simp only [check_final_report_from_dataframe, if_pos hc]
          refine ⟨⟨["bypass", "pattern_validation"], rfl⟩, ?_, ?_, ?_⟩
          · intro h
            cases h
          · intro _
            refine ⟨?_, ?_, ?_⟩ <;> trivial
          · intro _ h
            exact absurd hc h
        · simp only [check_final_report_from_dataframe, if_neg hc]
          refine ⟨⟨[], by simp [stepOrder]⟩, ?_, ?_, ?_⟩
          · intro h
            cases h
          · intro h
            exact absurd h hc
          · intro _ _
            rfl

/-- Witness for `step_order_short_circuit`: a run whose archive discovery
fails (no archives found) leaves every later step PENDING and stops the
trace after the discovery step. -/
theorem step_order_short_circuit_witness :
    (check_final_report_from_dataframe c1WitnessConfig (fun _ _ => false)
        (.ok (none, none)) "T001" 0).target_exists = pendingStep ∧
    (check_final_report_from_dataframe c1WitnessConfig (fun _ _ => false)
        (.ok (none, none)) "T001" 0).file_consistency = pendingStep ∧
    (check_final_report_from_dataframe c1WitnessConfig (fun _ _ => false)
        (.ok (none, none)) "T001" 0).bypass_applied = pendingStep ∧
    (check_final_report_from_dataframe c1WitnessConfig (fun _ _ => false)
        (.ok (none, none)) "T001" 0).pattern_validation = pendingStep ∧
    (check_final_report_from_dataframe c1WitnessConfig (fun _ _ => false)
        (.ok (none, none)) "T001" 0).trace = ["archive_discovery"] :=
  (step_order_short_circuit c1WitnessConfig (fun _ _ => false)
      (.ok (none, none)) "T001" 0 _ rfl).2.1 rfl

/-- C7 counterexample: a run whose archive discovery fails short-circuits
before pattern validation; its result reports `checked_patterns = 0` (no
patterns were checked) with `passing_rate = 0.0`, not `100.0` — so the
claim that the rate is exactly 100.0 whenever no patterns were checked
fails on short-circuited runs. -/
theorem passing_rate_counterexample :
    (check_final_report_from_dataframe c1WitnessConfig (fun _ _ => false)
        (.ok (none, none)) "T001" 0).statistics.checked_patterns = 0 ∧
    (check_final_report_from_dataframe c1WitnessConfig (fun _ _ => false)
        (.ok (none, none)) "T001" 0).statistics.passing_rate = 0 ∧
    (check_final_report_from_dataframe c1WitnessConfig (fun _ _ => false)
        (.ok (none, none)) "T001" 0).statistics.passing_rate ≠ 100 :=
  ⟨rfl, rfl, by decide⟩

/-- C7 (amended): whenever the run actually reaches pattern validation (the
step is not left PENDING by a short circuit), the passing rate equals
`pass_count / (pass_count + fail_count) * 100`, defined as exactly 100 when
the denominator is zero; and in every run — short-circuited or not — the
passing rate lies between 0 and 100 (a short-circuited run keeps the
initial rate 0.0). -/
theorem passing_rate_formula (cfg : VendorConfig)
    (regexSearch : String → String → Bool)
    (discovery : Except String (Option (String × Archive) × Option (String × Archive)))
    (tool_number : String) (tech_value : Int)
    (r : ValidationResult)
    (hr : r = check_final_report_from_dataframe cfg regexSearch discovery
      tool_number tech_value) :
    (r.pattern_validation.status ≠ .PENDING →
      r.statistics.passing_rate =
        if r.statistics.pass_count + r.statistics.fail_count = 0 then (100 : ℚ)
        else (r.statistics.pass_count : ℚ)
          / ((r.statistics.pass_count + r.statistics.fail_count : Nat) : ℚ)
          * 100) ∧
    0 ≤ r.statistics.passing_rate ∧ r.statistics.passing_rate ≤ 100 := by
  subst hr
  rcases discovery with e | ⟨srcOpt, tgtOpt⟩
  · exact ⟨fun h => absurd rfl h,
      by norm_num [check_final_report_from_dataframe, initialValidationResult,
        initialStatistics],
      by norm_num [check_final_report_from_dataframe, initialValidationResult,
        initialStatistics]⟩
  · rcases srcOpt with _ | ⟨sp, sa⟩
    · exact ⟨fun h => absurd rfl h,
        by norm_num [check_final_report_from_dataframe, initialValidationResult,
          initialStatistics],
        by norm_num [check_final_report_from_dataframe, initialValidationResult,
          initialStatistics]⟩
    · rcases tgtOpt with _ | ⟨tp, ta⟩
      · exact ⟨fun h => absurd rfl h,
          by norm_num [check_final_report_from_dataframe, initialValidationResult,
            initialStatistics],
          by norm_num [check_final_report_from_dataframe, initialValidationResult,
            initialStatistics]⟩
      · by_cases hc : (check_file_consistency cfg sp tp sa ta).status = .FAIL
        · refine ⟨fun h => absurd ?_ h, ?_, ?_⟩
          · simp [check_final_report_from_dataframe, hc, initialValidationResult,
              pendingStep]
          · simp [check_final_report_from_dataframe, hc, initialValidationResult,
              initialStatistics]
          · simp [check_final_report_from_dataframe, hc, initialValidationResult,
              initialStatistics]
        · simp only [check_final_report_from_dataframe, if_neg hc]
          have hsum := validate_patterns_counts regexSearch ta tool_number
            (apply_bypass_rules cfg tech_value).1
          have hple := validate_patterns_pass_le regexSearch ta tool_number
            (apply_bypass_rules cfg tech_value).1
          refine ⟨fun _ => ?_, ?_, ?_⟩
          · rw [hsum]
            rcases Nat.eq_zero_or_pos ((apply_bypass_rules cfg tech_value).1.length)
              with h0 | h0
            · rw [h0]
              norm_num
            · rw [if_pos h0, if_neg (by omega)]
          · rcases Nat.eq_zero_or_pos ((apply_bypass_rules cfg tech_value).1.length)
              with h0 | h0
            · rw [h0]
              norm_num
            · rw [if_pos h0]
              positivity
          · rcases Nat.eq_zero_or_pos ((apply_bypass_rules cfg tech_value).1.length)
              with h0 | h0
            · rw [h0]
              norm_num
            · rw [if_pos h0]
              have hd : ((validate_patterns regexSearch ta tool_number
                    (apply_bypass_rules cfg tech_value).1).1 : ℚ)
                  / (((apply_bypass_rules cfg tech_value).1.length : Nat) : ℚ) ≤ 1 := by
                rw [div_le_one (by exact_mod_cast h0)]
                exact_mod_cast hple
              calc ((validate_patterns regexSearch ta tool_number
                      (apply_bypass_rules cfg tech_value).1).1 : ℚ)
                    / (((apply_bypass_rules cfg tech_value).1.length : Nat) : ℚ) * 100
                  ≤ 1 * 100 := mul_le_mul_of_nonneg_right hd (by norm_num)
                _ = 100 := by norm_num

/-- Archive used by the completing-run witnesses: a single non-empty member
matching the one required pattern. -/
def engineWitnessArchive : Archive := [⟨"reports/Config_x.aaa", [7]⟩]

/-- Witness for `passing_rate_formula`: a completed run with one checked
pattern that passes has passing rate exactly 100. -/
theorem passing_rate_formula_witness :
    ((check_final_report_from_dataframe c1WitnessConfig (fun _ _ => true)
        (.ok (some ("src.tar.gz", engineWitnessArchive),
          some ("tgt.tar.gz", engineWitnessArchive))) "T001" 0).statistics).passing_rate
      = 100 := by
  have h := (passing_rate_formula c1WitnessConfig (fun _ _ => true)
      (.ok (some ("src.tar.gz", engineWitnessArchive),
        some ("tgt.tar.gz", engineWitnessArchive))) "T001" 0 _ rfl).1
      (by decide)
  rw [h]
  have hp : ((check_final_report_from_dataframe c1WitnessConfig (fun _ _ => true)
      (.ok (some ("src.tar.gz", engineWitnessArchive),
        some ("tgt.tar.gz", engineWitnessArchive))) "T001" 0).statistics).pass_count
      = 1 := by decide
  have hf : ((check_final_report_from_dataframe c1WitnessConfig (fun _ _ => true)
      (.ok (some ("src.tar.gz", engineWitnessArchive),
        some ("tgt.tar.gz", engineWitnessArchive))) "T001" 0).statistics).fail_count
      = 0 := by decide
  rw [hp, hf]
  norm_num

/-! ### Checkpoint orchestrator (`checkpoint_strategies.py`)

A checkpoint is a named, prioritized rule with a trigger predicate
(`should_check`) and a body (`execute_check`) that returns failure records
or raises (`Except.error`).  The row carries the fields the orchestrator
reads; the date type is abstract.  The wall-clock duration measured by
`time.time()` is the environment input `elapsed` (in ℚ seconds); the source
stores it only on the path where the trigger fired.
-/

structure FailureRecord where
  tool_number : String
  project : String
  fail_reason : String
  responsible_user : String
deriving DecidableEq, Repr

structure Row where
  tool_number : String
  tool_column : String
  responsible_user : Option String
deriving DecidableEq, Repr

structure Checkpoint (Date : Type) where
  name : String
  priority : Int
  should_check : Row → Date → Bool
  execute_check : Row → Date → Except String (List FailureRecord)

structure CheckResult where
  checkpoint_name : String
  tool_number : String
  tool_column : String
  should_check : Bool
  executed : Bool
  success : Bool
  failures : List FailureRecord
  execution_time : Option ℚ
deriving DecidableEq, Repr

/-- `EnhancedCheckpointStrategy.execute_enhanced_check`
(checkpoint_strategies.py lines 32-79): the result dict is initialized with
`executed=False, success=False, failures=[], execution_time=None`; only
when `should_check` is true does it run `execute_check`, set
`executed=True`, `success = (len(failures) == 0)` (or a synthetic failure
on an exception) and store the elapsed time. -/
def execute_enhanced_check {Date : Type} (cp : Checkpoint Date) (row : Row)
    (today : Date) (elapsed : ℚ) : CheckResult :=
  if cp.should_check row today then
    match cp.execute_check row today with
    | .error e =>
      { checkpoint_name := cp.name, tool_number := row.tool_number,
        tool_column := row.tool_column, should_check := true,
        executed := true, success := false,
        failures := [⟨row.tool_number, row.tool_column,
          "Checkpoint execution error: " ++ e,
          row.responsible_user.getD "Unknown"⟩],
        execution_time := some elapsed }
    | .ok failures =>
      { checkpoint_name := cp.name, tool_number := row.tool_number,
        tool_column := row.tool_column, should_check := true,
        executed := true, success := failures.length == 0,
        failures := failures,
        execution_time := some elapsed }
  else
    { checkpoint_name := cp.name, tool_number := row.tool_number,
      tool_column := row.tool_column, should_check := false,
      executed := false, success := false, failures := [],
      execution_time := none }

structure AllResults where
  tool_number : String
  tool_column : String
  checkpoints : List CheckResult
  overall_success : Bool
  total_failures : Nat
  executed_checkpoints : Nat
deriving DecidableEq, Repr

/-- The loop body of `execute_all_enhanced_checks`
(checkpoint_strategies.py lines 323-332): append each result, count
executed checkpoints, clear `overall_success` when a result is
unsuccessful and then add its failure count. -/
def runAllAux {Date : Type} (row : Row) (today : Date) (elapsed : ℚ)
    (acc : AllResults) : List (Checkpoint Date) → AllResults
  | [] => acc
  | cp :: rest =>
    runAllAux row today elapsed
      { acc with
        checkpoints := acc.checkpoints
          ++ [execute_enhanced_check cp row today elapsed]
        executed_checkpoints := acc.executed_checkpoints
          + (if (execute_enhanced_check cp row today elapsed).executed then 1 else 0)
        overall_success := acc.overall_success
          && (execute_enhanced_check cp row today elapsed).success
        total_failures := acc.total_failures
          + (if (execute_enhanced_check cp row today elapsed).success then 0
             else (execute_enhanced_check cp row today elapsed).failures.length) }
      rest

/-- `EnhancedCheckpointRegistry.execute_all_enhanced_checks`
(checkpoint_strategies.py lines 302-334), over the registry's
priority-sorted checkpoint list. -/
def execute_all_enhanced_checks {Date : Type} (checkpoints : List (Checkpoint Date))
    (row : Row) (today : Date) (elapsed : ℚ) : AllResults :=
  runAllAux row today elapsed
    { tool_number := row.tool_number, tool_column := row.tool_column,
      checkpoints := [], overall_success := true, total_failures := 0,
      executed_checkpoints := 0 }
    checkpoints

theorem runAllAux_checkpoints {Date : Type} (row : Row) (today : Date)
    (elapsed : ℚ) (l : List (Checkpoint Date)) (acc : AllResults) :
    (runAllAux row today elapsed acc l).checkpoints
      = acc.checkpoints
        ++ l.map (fun cp => execute_enhanced_check cp row today elapsed) := by
  induction l generalizing acc with
  | nil => simp [runAllAux]
  | cons cp rest ih => simp [runAllAux, ih]

theorem runAllAux_overall {Date : Type} (row : Row) (today : Date)
    (elapsed : ℚ) (l : List (Checkpoint Date)) (acc : AllResults) :
    (runAllAux row today elapsed acc l).overall_success
      = (acc.overall_success
          && (l.map (fun cp => execute_enhanced_check cp row today elapsed)).all
              (fun res => res.success)) := by
  induction l generalizing acc with
  | nil => simp [runAllAux]
  | cons cp rest ih => simp [runAllAux, ih, Bool.and_assoc]

theorem runAllAux_total {Date : Type} (row : Row) (today : Date)
    (elapsed : ℚ) (l : List (Checkpoint Date)) (acc : AllResults) :
    (runAllAux row today elapsed acc l).total_failures
      = acc.total_failures
        + ((l.map (fun cp => execute_enhanced_check cp row today elapsed)).map
            (fun res => if res.success then 0 else res.failures.length)).sum := by
  induction l generalizing acc with
  | nil => simp [runAllAux]
  | cons cp rest ih =>
    simp [runAllAux, ih]
    omega

/-- Concrete checkpoint whose trigger is always false (e.g. a Final Report
checkpoint far before the customer schedule window). -/
def c2Checkpoint : Checkpoint Unit :=
  { name := "Enhanced Final Report", priority := 2,
    should_check := fun _ _ => false,
    execute_check := fun _ _ => .ok [] }

def c2Row : Row :=
  { tool_number := "T001", tool_column := "ProjectA",
    responsible_user := some "alice" }

/-- C2 counterexample: for a checkpoint whose trigger is false, the result
has `success = false` (not the claimed vacuous `success = true`) and
`execution_time = None` (elapsed time is not recorded), alongside
`executed = false` and empty failures. -/
theorem checkpoint_vacuous_counterexample :
    (execute_enhanced_check c2Checkpoint c2Row () 1).executed = false ∧
    (execute_enhanced_check c2Checkpoint c2Row () 1).failures = [] ∧
    (execute_enhanced_check c2Checkpoint c2Row () 1).success = false ∧
    (execute_enhanced_check c2Checkpoint c2Row () 1).execution_time = none :=
  ⟨rfl, rfl, rfl, rfl⟩

/-- C2 (amended): when the trigger is false the checkpoint returns
`executed = false`, `success = false` (the code does not grant a vacuous
pass), an empty failures list, and `execution_time = None`; the elapsed
time is recorded only when the trigger fired. -/
theorem checkpoint_trigger_behavior {Date : Type} (cp : Checkpoint Date)
    (row : Row) (today : Date) (elapsed : ℚ) :
    (cp.should_check row today = false →
      (execute_enhanced_check cp row today elapsed).executed = false ∧
      (execute_enhanced_check cp row today elapsed).success = false ∧
      (execute_enhanced_check cp row today elapsed).failures = [] ∧
      (execute_enhanced_check cp row today elapsed).execution_time = none) ∧
    (cp.should_check row today = true →
      (execute_enhanced_check cp row today elapsed).executed = true ∧
      (execute_enhanced_check cp row today elapsed).execution_time
        = some elapsed) := by
  constructor
  · intro h
    simp [execute_enhanced_check, h]
  · intro h
    rcases he : cp.execute_check row today with e | fails <;>
      simp [execute_enhanced_check, h, he]

/-- Witness for `checkpoint_trigger_behavior` at the always-false trigger
checkpoint. -/
theorem checkpoint_trigger_behavior_witness :
    (execute_enhanced_check c2Checkpoint c2Row () 1).success = false ∧
    (execute_enhanced_check c2Checkpoint c2Row () 1).execution_time = none :=
  ⟨((checkpoint_trigger_behavior c2Checkpoint c2Row () 1).1 rfl).2.1,
    ((checkpoint_trigger_behavior c2Checkpoint c2Row () 1).1 rfl).2.2.2⟩

/-- C3 counterexample: running a registry holding one checkpoint whose
trigger is false yields `overall_success = false` although no checkpoint
executed (so no executed checkpoint failed) — refuting the claim that only
executed checkpoints can make `overall_success` false.  The non-executed
checkpoint still contributes 0 failures. -/
theorem runAll_skipped_counterexample :
    (execute_all_enhanced_checks [c2Checkpoint] c2Row () 1).overall_success
        = false ∧
    (∀ res ∈ (execute_all_enhanced_checks [c2Checkpoint] c2Row () 1).checkpoints,
      res.executed = false) ∧
    (execute_all_enhanced_checks [c2Checkpoint] c2Row () 1).total_failures = 0 := by
  exact ⟨rfl, by decide, rfl⟩

/-- C3 (amended): `overall_success` is false iff some checkpoint result is
unsuccessful — and a checkpoint whose trigger was false is always counted
as unsuccessful (it does make `overall_success` false); `total_failures`
sums the failure counts of the unsuccessful results, to which non-executed
checkpoints contribute 0 because their failures list is empty. -/
theorem runAll_aggregation {Date : Type} (cps : List (Checkpoint Date))
    (row : Row) (today : Date) (elapsed : ℚ) (R : AllResults)
    (hR : R = execute_all_enhanced_checks cps row today elapsed) :
    (R.overall_success = false ↔ ∃ res ∈ R.checkpoints, res.success = false) ∧
    R.total_failures
      = (R.checkpoints.map
          (fun res => if res.success then 0 else res.failures.length)).sum ∧
    (∀ res ∈ R.checkpoints, res.executed = false →
      res.failures = [] ∧ res.success = false) := by
  subst hR
  rw [show execute_all_enhanced_checks cps row today elapsed
      = runAllAux row today elapsed
          { tool_number := row.tool_number, tool_column := row.tool_column,
            checkpoints := [], overall_success := true, total_failures := 0,
            executed_checkpoints := 0 } cps from rfl]
  rw [runAllAux_checkpoints, runAllAux_overall, runAllAux_total]
  refine ⟨?_, by simp, ?_⟩
  · simp only [List.nil_append, Bool.true_and]
    constructor
    · intro h
      by_contra hex
      push_neg at hex
      have : ∀ res ∈ cps.map
          (fun cp => execute_enhanced_check cp row today elapsed),
          res.success = true := by
        intro res hres
        have := hex res hres
        cases hsucc : res.success
        · exact absurd hsucc this
        · rfl
      rw [List.all_eq_true.mpr (by intro x hx; simpa using this x hx)] at h
      cases h
    · rintro ⟨res, hres, hfail⟩
      cases hall : (cps.map
          (fun cp => execute_enhanced_check cp row today elapsed)).all
          (fun res => res.success)
      · rfl
      · have := List.all_eq_true.mp hall res hres
        rw [hfail] at this
        cases this
  · simp only [List.nil_append]
    intro res hres hexec
    obtain ⟨cp, _, rfl⟩ := List.mem_map.mp hres
    by_cases hsc : cp.should_check row today = true
    · rcases he : cp.execute_check row today with e | fails <;>
        simp [execute_enhanced_check, hsc, he] at hexec
    · have hsc2 : cp.should_check row today = false := by
        cases h : cp.should_check row today
        · rfl
        · exact absurd h hsc
      simp [execute_enhanced_check, hsc2]

/-- Witness for `runAll_aggregation`: a single never-triggering checkpoint
makes the aggregate `overall_success` false. -/
theorem runAll_aggregation_witness :
    (execute_all_enhanced_checks [c2Checkpoint] c2Row () 1).overall_success
      = false :=
  (runAll_aggregation [c2Checkpoint] c2Row () 1 _ rfl).1.mpr
    ⟨execute_enhanced_check c2Checkpoint c2Row () 1, by decide, rfl⟩

end ToolMgmt
